import Mathlib

/-!
Verification of the instrumented GORM demo server
(`instrumented-gorm-server/app.go`).

The Go program is shallowly embedded below:

* `Product` mirrors the `Product` struct (the `gorm.Model` identifier is the
  `id` field; timestamps are irrelevant to the properties and omitted).
* `Store` models the GORM/sqlite record store: a list of records in creation
  order (GORM's `First` returns the first match in primary-key order, which
  coincides with list order here), a `nextId` counter for the identifiers the
  store assigns, an `accesses` counter recording how many store operations
  were attempted, and an injectable `failure` detail that makes every store
  operation fail with a backend error (modelling connectivity or query
  failures of the underlying store).
* `TraceContext` models the New Relic transaction: the list of segments
  (name plus closed flag) opened on it, and the list of noticed errors.
  `txn.StartSegment(n)` appends an open segment and returns its index;
  `.End()` marks it closed.  Go's `defer txn.StartSegment(n).End()`
  evaluates `StartSegment` at function entry and runs `End` on every exit
  path, which the embedding mirrors by closing the segment on each branch.
* `ResponseWriter` models `http.ResponseWriter`: the first `WriteHeader`
  wins (Go ignores a second call), `Write` appends to the body.
* `atoi` models `strconv.Atoi` as syntactic integer parsing over unbounded
  integers (64-bit range errors are out of scope for the properties below).
* `goToLower` models `strings.ToLower` on the ASCII range.
* Requests are modelled after form parsing: an absent form value is the
  empty string, exactly as `r.Form.Get` yields.  The `r.ParseForm()` error
  path is transport-level and not modelled.
* The condition strings `"code = ?"` / `"name = ?"` handed to GORM are
  modelled by the inductive `Cond`; the ORM's query execution is a
  collaborator and out of scope.
-/

/-- The persisted `Product` entity of `app.go`. -/
structure Product where
  id : Nat
  code : String
  name : String
  price : Int
deriving Repr, DecidableEq

/-- The record store backing the application (GORM over sqlite). -/
structure Store where
  nextId : Nat := 1
  records : List Product := []
  failure : Option String := none
  accesses : Nat := 0
deriving Repr, DecidableEq

/-- Errors the store can report: GORM's `ErrRecordNotFound` from `First`
with no match, or a lower-level backend failure with its detail text. -/
inductive StoreErr where
  | notFound
  | backend (detail : String)
deriving Repr, DecidableEq

/-- The error text of a store error (`ErrRecordNotFound.Error()` is
`"record not found"`). -/
def storeErrString : StoreErr → String
  | .notFound => "record not found"
  | .backend d => d

/-- The two query conditions the handlers pass to GORM:
`"code = ?"` and `"name = ?"`. -/
inductive Cond where
  | codeEq
  | nameEq
deriving Repr, DecidableEq

/-- Whether a record matches a condition with the given bound value. -/
def condMatch : Cond → String → Product → Bool
  | .codeEq, v, p => p.code == v
  | .nameEq, v, p => p.name == v

/-- `db.First(&product, condition, value)`: first matching record in
primary-key order, `ErrRecordNotFound` when none matches, a backend error
when the store is failing.  Every call counts as one store access. -/
def storeFirst (st : Store) (cond : Cond) (value : String) :
    Except StoreErr Product × Store :=
  let st' := { st with accesses := st.accesses + 1 }
  match st.failure with
  | some d => (.error (.backend d), st')
  | none =>
    match st.records.find? (condMatch cond value) with
    | some p => (.ok p, st')
    | none => (.error .notFound, st')

/-- `db.Create(&Product{...})`: appends a record with the next assigned
identifier, or reports a backend error when the store is failing.  Every
call counts as one store access. -/
def storeCreate (st : Store) (code name : String) (price : Int) :
    Except StoreErr Product × Store :=
  match st.failure with
  | some d => (.error (.backend d), { st with accesses := st.accesses + 1 })
  | none =>
    let p : Product := ⟨st.nextId, code, name, price⟩
    (.ok p, { st with accesses := st.accesses + 1, nextId := st.nextId + 1,
                      records := st.records ++ [p] })

/-- A named timing segment of a trace, with its closed flag. -/
structure Segment where
  name : String
  closed : Bool
deriving Repr, DecidableEq

/-- The per-request New Relic transaction: its segments and noticed errors. -/
structure TraceContext where
  segments : List Segment := []
  errors : List String := []
deriving Repr, DecidableEq

/-- `txn.StartSegment(name)`: appends an open segment, returning its index. -/
def TraceContext.startSegment (t : TraceContext) (n : String) :
    TraceContext × Nat :=
  ({ t with segments := t.segments ++ [⟨n, false⟩] }, t.segments.length)

/-- Marks the segment at the given index closed. -/
def setClosed : List Segment → Nat → List Segment
  | [], _ => []
  | s :: rest, 0 => { s with closed := true } :: rest
  | s :: rest, n + 1 => s :: setClosed rest n

/-- `segment.End()`: closes the segment at the given index. -/
def TraceContext.endSegment (t : TraceContext) (i : Nat) : TraceContext :=
  { t with segments := setClosed t.segments i }

/-- `txn.NoticeError(err)`: records an error on the transaction. -/
def TraceContext.noticeError (t : TraceContext) (e : String) : TraceContext :=
  { t with errors := t.errors ++ [e] }

/-- The number of closed segments with the given name. -/
def TraceContext.countClosed (t : TraceContext) (n : String) : Nat :=
  (t.segments.filter (fun s => s.name == n && s.closed)).length

/-- Every segment of the trace has been closed. -/
def TraceContext.allClosed (t : TraceContext) : Bool :=
  t.segments.all (·.closed)

/-- `http.ResponseWriter`: status set by the first `WriteHeader` call
(later calls are superfluous and ignored), body accumulated by `Write`. -/
structure ResponseWriter where
  status : Option Nat := none
  body : String := ""
deriving Repr, DecidableEq

/-- `w.WriteHeader(n)`: sets the status unless already set. -/
def ResponseWriter.writeHeader (w : ResponseWriter) (n : Nat) : ResponseWriter :=
  match w.status with
  | some _ => w
  | none => { w with status := some n }

/-- `w.Write([]byte(s))`: appends to the body. -/
def ResponseWriter.write (w : ResponseWriter) (s : String) : ResponseWriter :=
  { w with body := w.body ++ s }

/-- `strings.ToLower` (ASCII range). -/
def goToLower (s : String) : String :=
  ⟨s.data.map Char.toLower⟩

/-- Decimal digit value of a character, if it is a digit. -/
def digitVal (c : Char) : Option Nat :=
  if '0' ≤ c ∧ c ≤ '9' then some (c.toNat - '0'.toNat) else none

/-- Accumulates decimal digits; fails on the first non-digit. -/
def parseNatAux : List Char → Nat → Option Nat
  | [], acc => some acc
  | c :: cs, acc =>
    match digitVal c with
    | some d => parseNatAux cs (acc * 10 + d)
    | none => none

/-- A non-empty run of decimal digits as a natural number. -/
def parseNatDigits : List Char → Option Nat
  | [] => none
  | cs => parseNatAux cs 0

/-- `strconv.Atoi`: optional sign followed by at least one decimal digit;
`none` on the empty string or any other character. -/
def atoi (s : String) : Option Int :=
  match s.data with
  | '-' :: rest => (parseNatDigits rest).map (fun n => -(n : Int))
  | '+' :: rest => (parseNatDigits rest).map (fun n => (n : Int))
  | cs => (parseNatDigits cs).map (fun n => (n : Int))

/-- The `BackendError` constant of `app.go`: the only store-failure text
that may cross the HTTP boundary. -/
def BackendError : String := "backend error"

/-- `errorResponse`: opens the response segment (named `"okResponse"` in the
source), notices the internal error on the transaction, writes the status
and the `"<status> - <clientError>"` envelope, and closes the segment. -/
def errorResponse (w : ResponseWriter) (txn : TraceContext)
    (errorNumber : Nat) (clientError internalError : String) :
    ResponseWriter × TraceContext :=
  let (txn, seg) := txn.startSegment "okResponse"
  let txn := txn.noticeError internalError
  let w := w.writeHeader errorNumber
  let response := toString errorNumber ++ " - " ++ clientError
  let w := w.write response
  (w, txn.endSegment seg)

/-- `okResponse`: opens the `"okResponse"` segment, writes status 200 and
the message, and closes the segment. -/
def okResponse (w : ResponseWriter) (txn : TraceContext) (message : String) :
    ResponseWriter × TraceContext :=
  let (txn, seg) := txn.startSegment "okResponse"
  let w := w.writeHeader 200
  let w := w.write message
  (w, txn.endSegment seg)

/-- `App.getProduct`: wraps the store lookup in a `"getProduct"` segment. -/
def App.getProduct (app : Store) (txn : TraceContext) (cond : Cond)
    (value : String) : (Except StoreErr Product × Store) × TraceContext :=
  let (txn, seg) := txn.startSegment "getProduct"
  let r := storeFirst app cond value
  (r, txn.endSegment seg)

/-- `App.createProduct`: wraps the store insert in a segment — named
`"getProduct"` in the source (`app.go` line 162 reuses that name). -/
def App.createProduct (app : Store) (txn : TraceContext) (code name : String)
    (price : Int) : (Except StoreErr Product × Store) × TraceContext :=
  let (txn, seg) := txn.startSegment "getProduct"
  let r := storeCreate app code name price
  (r, txn.endSegment seg)

/-- The tail of `App.Get` after the lookup (`app.go` lines 147–154): a
store error becomes the 500 backend-error envelope with the detail noticed
on the transaction; a found product becomes `"<name>,<code>: $<price>"`. -/
def getFinish (app : Store) (w : ResponseWriter) (txn : TraceContext)
    (seg : Nat) (res : Except StoreErr Product) :
    Store × ResponseWriter × TraceContext :=
  match res with
  | .error e =>
    let (w, txn) := errorResponse w txn 500 BackendError
      ("unable to GET product: " ++ storeErrString e)
    (app, w, txn.endSegment seg)
  | .ok product =>
    let response :=
      product.name ++ "," ++ product.code ++ ": $" ++ toString product.price
    let (w, txn) := okResponse w txn response
    (app, w, txn.endSegment seg)

/-- `App.Get` (`app.go` lines 117–155), on an already-parsed form: lookup by
code when `code` is non-empty, else by lowercased name when non-empty, else
the 400 validation envelope with no store access.  The handler's own
segment is named `"Get"`. -/
def App.Get (app : Store) (w : ResponseWriter) (txn : TraceContext)
    (codeArg nameArg : String) : Store × ResponseWriter × TraceContext :=
  let (txn, seg) := txn.startSegment "Get"
  let code := codeArg
  let name := goToLower nameArg
  if code ≠ "" then
    let (r, txn) := App.getProduct app txn .codeEq code
    getFinish r.2 w txn seg r.1
  else if name ≠ "" then
    let (r, txn) := App.getProduct app txn .nameEq name
    getFinish r.2 w txn seg r.1
  else
    let msg := "bad request: either name or code must be provided for get"
    let (w, txn) := errorResponse w txn 400 msg msg
    (app, w, txn.endSegment seg)

/-- `App.Add` (`app.go` lines 176–218), on an already-parsed form.  The
handler's own segment is named `"Get"` in the source (line 179).  Empty
code, name or price short-circuits with the 400 envelope.  A price-parse
failure writes the 500 backend-error envelope but does NOT return
(`app.go` lines 201–206 lack a `return`), so the create is still attempted
with the zero value `intPrice = 0`; a create failure likewise writes the
500 envelope without returning; the success body is then written
unconditionally. -/
def App.Add (app : Store) (w : ResponseWriter) (txn : TraceContext)
    (codeArg nameArg priceArg : String) :
    Store × ResponseWriter × TraceContext :=
  let (txn, seg) := txn.startSegment "Get"
  let code := codeArg
  let name := goToLower nameArg
  let price := priceArg
  if code = "" ∨ name = "" ∨ price = "" then
    let clientError := "bad request: code, name, and price can not be empty"
    let (w, txn) := errorResponse w txn 400 clientError clientError
    (app, w, txn.endSegment seg)
  else
    let parsed := atoi price
    let (w, txn) :=
      match parsed with
      | none => errorResponse w txn 500 BackendError
          ("error converting " ++ price ++ " to an integer: invalid syntax")
      | some _ => (w, txn)
    let intPrice : Int := parsed.getD 0
    let (r, txn) := App.createProduct app txn code name intPrice
    let app := r.2
    let (w, txn) :=
      match r.1 with
      | .error e => errorResponse w txn 500 BackendError
          ("error creating product: " ++ storeErrString e)
      | .ok _ => (w, txn)
    let response := "Added Product: \x7bCode: " ++ code ++ ", Name: " ++ name
      ++ ", Price: " ++ price ++ "\x7d"
    let (w, txn) := okResponse w txn response
    (app, w, txn.endSegment seg)

/-- A fresh `/get` request against the store: fresh response writer and
fresh transaction, as the wrapped handler provides per request. -/
def runGet (st : Store) (code name : String) :
    Store × ResponseWriter × TraceContext :=
  App.Get st {} {} code name

/-- A fresh `/add` request against the store. -/
def runAdd (st : Store) (code name price : String) :
    Store × ResponseWriter × TraceContext :=
  App.Add st {} {} code name price

/-! ### Helper lemmas -/

lemma storeFirst_snd (st : Store) (cond : Cond) (v : String) :
    (storeFirst st cond v).2 = { st with accesses := st.accesses + 1 } := by
  unfold storeFirst
  cases h : st.failure with
  | some d => simp
  | none =>
    cases h2 : st.records.find? (condMatch cond v) <;> simp

lemma string_mk_eq_empty_iff (l : List Char) : (⟨l⟩ : String) = "" ↔ l = [] := by
  rw [show ("" : String) = ⟨[]⟩ from rfl]
  exact ⟨fun h => by injection h, fun h => by rw [h]⟩

lemma goToLower_eq_empty_iff (s : String) : goToLower s = "" ↔ s = "" := by
  cases s with
  | mk data =>
    rw [goToLower, string_mk_eq_empty_iff, string_mk_eq_empty_iff]
    simp

lemma atoi_empty : atoi "" = none := rfl

/-- The trace of a request that reached the store and sent one response:
handler segment, store segment, response segment, all closed. -/
def traceStoreResp (errs : List String) : TraceContext :=
  ⟨[⟨"Get", true⟩, ⟨"getProduct", true⟩, ⟨"okResponse", true⟩], errs⟩

/-- The trace of a request rejected by validation: handler segment and
response segment only. -/
def traceValidation (errs : List String) : TraceContext :=
  ⟨[⟨"Get", true⟩, ⟨"okResponse", true⟩], errs⟩

lemma runGet_validation (st : Store) (code name : String)
    (hc : code = "") (hn : goToLower name = "") :
    runGet st code name =
      (st, ⟨some 400,
        "400 - bad request: either name or code must be provided for get"⟩,
       traceValidation
         ["bad request: either name or code must be provided for get"]) := by
  subst hc
  simp [runGet, App.Get, hn, errorResponse, okResponse, TraceContext.startSegment,
    TraceContext.endSegment, TraceContext.noticeError, ResponseWriter.writeHeader,
    ResponseWriter.write, setClosed, traceValidation]
  rfl

lemma runGet_code_ok (st : Store) (code name : String) (p : Product)
    (hc : code ≠ "") (hp : (storeFirst st .codeEq code).1 = .ok p) :
    runGet st code name =
      ({ st with accesses := st.accesses + 1 },
       ⟨some 200, p.name ++ "," ++ p.code ++ ": $" ++ toString p.price⟩,
       traceStoreResp []) := by
  simp [runGet, App.Get, App.getProduct, hc, getFinish, hp, storeFirst_snd,
    okResponse, TraceContext.startSegment, TraceContext.endSegment,
    ResponseWriter.writeHeader, ResponseWriter.write, setClosed, traceStoreResp]

lemma runGet_code_err (st : Store) (code name : String) (e : StoreErr)
    (hc : code ≠ "") (he : (storeFirst st .codeEq code).1 = .error e) :
    runGet st code name =
      ({ st with accesses := st.accesses + 1 },
       ⟨some 500, "500 - " ++ BackendError⟩,
       traceStoreResp ["unable to GET product: " ++ storeErrString e]) := by
  simp [runGet, App.Get, App.getProduct, hc, getFinish, he, storeFirst_snd,
    errorResponse, TraceContext.startSegment, TraceContext.endSegment,
    TraceContext.noticeError, ResponseWriter.writeHeader, ResponseWriter.write,
    setClosed, traceStoreResp, BackendError]
  rfl

lemma runGet_name_ok (st : Store) (name : String) (p : Product)
    (hn : goToLower name ≠ "")
    (hp : (storeFirst st .nameEq (goToLower name)).1 = .ok p) :
    runGet st "" name =
      ({ st with accesses := st.accesses + 1 },
       ⟨some 200, p.name ++ "," ++ p.code ++ ": $" ++ toString p.price⟩,
       traceStoreResp []) := by
  simp [runGet, App.Get, App.getProduct, hn, getFinish, hp, storeFirst_snd,
    okResponse, TraceContext.startSegment, TraceContext.endSegment,
    ResponseWriter.writeHeader, ResponseWriter.write, setClosed, traceStoreResp]

lemma runGet_name_err (st : Store) (name : String) (e : StoreErr)
    (hn : goToLower name ≠ "")
    (he : (storeFirst st .nameEq (goToLower name)).1 = .error e) :
    runGet st "" name =
      ({ st with accesses := st.accesses + 1 },
       ⟨some 500, "500 - " ++ BackendError⟩,
       traceStoreResp ["unable to GET product: " ++ storeErrString e]) := by
  simp [runGet, App.Get, App.getProduct, hn, getFinish, he, storeFirst_snd,
    errorResponse, TraceContext.startSegment, TraceContext.endSegment,
    TraceContext.noticeError, ResponseWriter.writeHeader, ResponseWriter.write,
    setClosed, traceStoreResp, BackendError]
  rfl

/-- The success line `Add` always writes:
`"Added Product: {Code: <code>, Name: <name>, Price: <price>}"` with the
lowercased name and the raw price string. -/
def addedLine (code lname price : String) : String :=
  "Added Product: \x7bCode: " ++ code ++ ", Name: " ++ lname
    ++ ", Price: " ++ price ++ "\x7d"

/-- The internal error text for a price that fails `strconv.Atoi`. -/
def convErr (price : String) : String :=
  "error converting " ++ price ++ " to an integer: invalid syntax"

lemma toString_nat_400 : toString (400 : Nat) = "400" := rfl

lemma toString_nat_500 : toString (500 : Nat) = "500" := rfl

/-- The trace of an add whose create failed: handler, store, error
response, success response. -/
def traceCreateFail (errs : List String) : TraceContext :=
  ⟨[⟨"Get", true⟩, ⟨"getProduct", true⟩, ⟨"okResponse", true⟩,
    ⟨"okResponse", true⟩], errs⟩

lemma runAdd_validation (st : Store) (code name price : String)
    (h : code = "" ∨ goToLower name = "" ∨ price = "") :
    runAdd st code name price =
      (st, ⟨some 400, "400 - bad request: code, name, and price can not be empty"⟩,
       traceValidation ["bad request: code, name, and price can not be empty"]) := by
  simp only [runAdd, App.Add, TraceContext.startSegment, TraceContext.endSegment,
    TraceContext.noticeError, errorResponse, ResponseWriter.writeHeader,
    ResponseWriter.write, if_pos h]
  simp [setClosed, traceValidation]
  rfl

lemma runAdd_ok (st : Store) (code name price : String) (n : Int)
    (hc : code ≠ "") (hn : goToLower name ≠ "") (hp : price ≠ "")
    (hparse : atoi price = some n) (hf : st.failure = none) :
    runAdd st code name price =
      ({ st with accesses := st.accesses + 1, nextId := st.nextId + 1,
                 records := st.records ++ [⟨st.nextId, code, goToLower name, n⟩] },
       ⟨some 200, addedLine code (goToLower name) price⟩,
       traceStoreResp []) := by
  have h : ¬ (code = "" ∨ goToLower name = "" ∨ price = "") := by
    simp [hc, hn, hp]
  simp [runAdd, App.Add, if_neg h, hparse, App.createProduct, storeCreate, hf,
    okResponse, TraceContext.startSegment, TraceContext.endSegment,
    ResponseWriter.writeHeader, ResponseWriter.write, setClosed,
    traceStoreResp, addedLine]

lemma runAdd_createfail (st : Store) (code name price : String) (n : Int)
    (d : String) (hc : code ≠ "") (hn : goToLower name ≠ "") (hp : price ≠ "")
    (hparse : atoi price = some n) (hf : st.failure = some d) :
    runAdd st code name price =
      ({ st with accesses := st.accesses + 1 },
       ⟨some 500, "500 - " ++ BackendError ++ addedLine code (goToLower name) price⟩,
       traceCreateFail ["error creating product: " ++ d]) := by
  have h : ¬ (code = "" ∨ goToLower name = "" ∨ price = "") := by
    simp [hc, hn, hp]
  simp [runAdd, App.Add, if_neg h, hparse, App.createProduct, storeCreate, hf,
    okResponse, errorResponse, TraceContext.startSegment, TraceContext.endSegment,
    TraceContext.noticeError, ResponseWriter.writeHeader, ResponseWriter.write,
    setClosed, traceCreateFail, addedLine, BackendError, storeErrString,
    toString_nat_500, String.append_assoc]

/-- The trace of an add whose price failed to parse but whose create
succeeded: handler, error-response, store, success-response segments. -/
def traceParseFail (errs : List String) : TraceContext :=
  ⟨[⟨"Get", true⟩, ⟨"okResponse", true⟩, ⟨"getProduct", true⟩,
    ⟨"okResponse", true⟩], errs⟩

/-- The trace of an add whose price failed to parse and whose create also
failed: handler, two error responses, store, success response. -/
def traceDoubleFail (errs : List String) : TraceContext :=
  ⟨[⟨"Get", true⟩, ⟨"okResponse", true⟩, ⟨"getProduct", true⟩,
    ⟨"okResponse", true⟩, ⟨"okResponse", true⟩], errs⟩

lemma runAdd_parsefail (st : Store) (code name price : String)
    (hc : code ≠ "") (hn : goToLower name ≠ "") (hp : price ≠ "")
    (hparse : atoi price = none) (hf : st.failure = none) :
    runAdd st code name price =
      ({ st with accesses := st.accesses + 1, nextId := st.nextId + 1,
                 records := st.records ++ [⟨st.nextId, code, goToLower name, 0⟩] },
       ⟨some 500, "500 - " ++ BackendError ++ addedLine code (goToLower name) price⟩,
       traceParseFail [convErr price]) := by
  have h : ¬ (code = "" ∨ goToLower name = "" ∨ price = "") := by
    simp [hc, hn, hp]
  simp [runAdd, App.Add, if_neg h, hparse, App.createProduct, storeCreate, hf,
    okResponse, errorResponse, TraceContext.startSegment, TraceContext.endSegment,
    TraceContext.noticeError, ResponseWriter.writeHeader, ResponseWriter.write,
    setClosed, traceParseFail, addedLine, BackendError, convErr,
    toString_nat_500, String.append_assoc]

lemma runAdd_doublefail (st : Store) (code name price : String) (d : String)
    (hc : code ≠ "") (hn : goToLower name ≠ "") (hp : price ≠ "")
    (hparse : atoi price = none) (hf : st.failure = some d) :
    runAdd st code name price =
      ({ st with accesses := st.accesses + 1 },
       ⟨some 500, "500 - " ++ BackendError ++ ("500 - " ++ BackendError)
          ++ addedLine code (goToLower name) price⟩,
       traceDoubleFail [convErr price, "error creating product: " ++ d]) := by
  have h : ¬ (code = "" ∨ goToLower name = "" ∨ price = "") := by
    simp [hc, hn, hp]
  simp [runAdd, App.Add, if_neg h, hparse, App.createProduct, storeCreate, hf,
    okResponse, errorResponse, TraceContext.startSegment, TraceContext.endSegment,
    TraceContext.noticeError, ResponseWriter.writeHeader, ResponseWriter.write,
    setClosed, traceDoubleFail, addedLine, BackendError, convErr, storeErrString,
    toString_nat_500, String.append_assoc]

/-! ### Claim theorems -/

/-- C5: a get request that supplies neither a code nor a name value (absent
form values read back as the empty string) fails with the validation error
surfaced as a 400 bad-request response, the store is untouched (same state,
no access), and no store-access segment is opened. -/
theorem c5_get_without_code_or_name_is_validation_error (st : Store) :
    (runGet st "" "").1 = st ∧
    (runGet st "" "").2.1.status = some 400 ∧
    (runGet st "" "").2.1.body =
      "400 - bad request: either name or code must be provided for get" ∧
    (runGet st "" "").1.accesses = st.accesses ∧
    (runGet st "" "").2.2.countClosed "getProduct" = 0 := by
  rw [runGet_validation st "" "" rfl rfl]
  exact ⟨rfl, rfl, rfl, rfl, rfl⟩

/-- C6: an add request with an empty code, name, or price field fails with
the validation error as a 400 bad-request response before any store access:
the store state is returned unchanged and no store-access segment is
opened. -/
theorem c6_add_empty_field_is_validation_error (st : Store)
    (code name price : String) (h : code = "" ∨ name = "" ∨ price = "") :
    (runAdd st code name price).1 = st ∧
    (runAdd st code name price).2.1.status = some 400 ∧
    (runAdd st code name price).2.1.body =
      "400 - bad request: code, name, and price can not be empty" ∧
    (runAdd st code name price).2.2.countClosed "getProduct" = 0 := by
  have h' : code = "" ∨ goToLower name = "" ∨ price = "" := by
    rcases h with h | h | h
    · exact Or.inl h
    · exact Or.inr (Or.inl ((goToLower_eq_empty_iff name).mpr h))
    · exact Or.inr (Or.inr h)
  rw [runAdd_validation st code name price h']
  exact ⟨rfl, rfl, rfl, rfl⟩

/-- Witness for C6 at `add(code="X", name="", price="5")`. -/
theorem c6_witness :
    ("X" = "" ∨ "" = "" ∨ "5" = "") ∧
    (runAdd {} "X" "" "5").1 = ({} : Store) ∧
    (runAdd {} "X" "" "5").2.1.status = some 400 ∧
    (runAdd {} "X" "" "5").2.1.body =
      "400 - bad request: code, name, and price can not be empty" ∧
    (runAdd {} "X" "" "5").2.2.countClosed "getProduct" = 0 :=
  ⟨Or.inr (Or.inl rfl),
   c6_add_empty_field_is_validation_error {} "X" "" "5" (Or.inr (Or.inl rfl))⟩

/-- C7: two get-by-name requests whose name values differ only in letter
case (same lowercase form) produce identical outcomes — same store state,
same response, same trace — because the lookup value is lowercased by the
handler, just as `Add` lowercases the stored name. -/
theorem c7_get_by_name_case_insensitive (st : Store) (n₁ n₂ : String)
    (h : goToLower n₁ = goToLower n₂) :
    runGet st "" n₁ = runGet st "" n₂ := by
  simp only [runGet, App.Get, h]

/-- Witness for C7: `get(name="Widget")` and `get(name="WIDGET")` coincide. -/
theorem c7_witness :
    goToLower "Widget" = goToLower "WIDGET" ∧
    runGet {} "" "Widget" = runGet {} "" "WIDGET" :=
  ⟨by decide, c7_get_by_name_case_insensitive {} "Widget" "WIDGET" (by decide)⟩

/-- C9: a get request with a valid lookup value of either flavor — a
non-empty code, or a non-empty name (matched against its lowercase form) —
that matches no record on a healthy store fails with the store's
not-found error, surfaced to the caller as a 500 status with the generic
backend-error envelope — not a distinct not-found status — while the
not-found detail is noticed on the trace context. -/
theorem c9_get_no_match_is_500_backend_envelope (st : Store)
    (code name : String) (hf : st.failure = none) :
    (code ≠ "" → (∀ p ∈ st.records, p.code ≠ code) →
      (storeFirst st .codeEq code).1 = .error .notFound ∧
      (runGet st code "").2.1.status = some 500 ∧
      (runGet st code "").2.1.body = "500 - " ++ BackendError ∧
      (runGet st code "").2.2.errors
        = ["unable to GET product: record not found"]) ∧
    (name ≠ "" → (∀ p ∈ st.records, p.name ≠ goToLower name) →
      (storeFirst st .nameEq (goToLower name)).1 = .error .notFound ∧
      (runGet st "" name).2.1.status = some 500 ∧
      (runGet st "" name).2.1.body = "500 - " ++ BackendError ∧
      (runGet st "" name).2.2.errors
        = ["unable to GET product: record not found"]) := by
  constructor
  · intro hc hnone
    have hfind : st.records.find? (condMatch .codeEq code) = none := by
      rw [List.find?_eq_none]
      intro p hp
      simp only [condMatch, beq_iff_eq]
      exact hnone p hp
    have he : (storeFirst st .codeEq code).1 = .error .notFound := by
      simp [storeFirst, hf, hfind]
    rw [runGet_code_err st code "" .notFound hc he]
    exact ⟨he, rfl, rfl, rfl⟩
  · intro hn hnone
    have hn' : goToLower name ≠ "" :=
      fun hcon => hn ((goToLower_eq_empty_iff name).mp hcon)
    have hfind : st.records.find? (condMatch .nameEq (goToLower name))
        = none := by
      rw [List.find?_eq_none]
      intro p hp
      simp only [condMatch, beq_iff_eq]
      exact hnone p hp
    have he : (storeFirst st .nameEq (goToLower name)).1 = .error .notFound := by
      simp [storeFirst, hf, hfind]
    rw [runGet_name_err st name .notFound hn' he]
    exact ⟨he, rfl, rfl, rfl⟩

/-- Witness for C9: `get(code="missing")` and `get(name="Ghost")` on an
empty store, exercising both lookup flavors. -/
theorem c9_witness :
    ("missing" ≠ "" ∧ "Ghost" ≠ "") ∧
    (runGet {} "missing" "").2.1.status = some 500 ∧
    (runGet {} "missing" "").2.1.body = "500 - " ++ BackendError ∧
    (runGet {} "" "Ghost").2.1.status = some 500 ∧
    (runGet {} "" "Ghost").2.1.body = "500 - " ++ BackendError ∧
    (runGet {} "" "Ghost").2.2.errors =
      ["unable to GET product: record not found"] :=
  ⟨⟨by decide, by decide⟩, by
    have h := c9_get_no_match_is_500_backend_envelope {} "missing" "Ghost" rfl
    have h1 := h.1 (by decide) (by simp)
    have h2 := h.2 (by decide) (by simp)
    exact ⟨h1.2.1, h1.2.2.1, h2.2.1, h2.2.2.1, h2.2.2.2⟩⟩

/-- C2 (divergence witness): evaluating `Add` at `code="A"`, `name="b"`,
`price="abc"` on an empty, healthy store.  The spec requires a
`ValidationError` with the store left unchanged; the handler instead writes
the 500 backend-error envelope, still inserts a record with price 0 (the
`strconv.Atoi` zero value), and appends the success body — the missing
`return` after the parse-failure response (`app.go` lines 201–206). -/
theorem c2_nonnumeric_price_eval :
    (runAdd {} "A" "b" "abc").1.records = [⟨1, "A", "b", 0⟩] ∧
    (runAdd {} "A" "b" "abc").2.1.status = some 500 ∧
    (runAdd {} "A" "b" "abc").2.1.body =
      "500 - backend error" ++
        "Added Product: \x7bCode: A, Name: b, Price: abc\x7d" ∧
    (runAdd {} "A" "b" "abc").2.2.errors =
      ["error converting abc to an integer: invalid syntax"] := by
  decide

/-- C10: the add handler does not return early after an error response.
With all fields non-empty: (i) on a price-parse failure over a healthy
store, a record with price 0 is still inserted and the success body is
appended to the error envelope; (ii) on a store-create failure with a
well-formed price, the create is still attempted (one store access) and
the success body is again appended to the error envelope. -/
theorem c10_add_does_not_return_early (st : Store) (code name price : String)
    (hc : code ≠ "") (hn : name ≠ "") (hp : price ≠ "") :
    (atoi price = none → st.failure = none →
      (runAdd st code name price).1.records
        = st.records ++ [⟨st.nextId, code, goToLower name, 0⟩] ∧
      (runAdd st code name price).2.1.status = some 500 ∧
      (runAdd st code name price).2.1.body
        = "500 - " ++ BackendError ++ addedLine code (goToLower name) price) ∧
    (∀ n d, atoi price = some n → st.failure = some d →
      (runAdd st code name price).1.records = st.records ∧
      (runAdd st code name price).1.accesses = st.accesses + 1 ∧
      (runAdd st code name price).2.1.body
        = "500 - " ++ BackendError ++ addedLine code (goToLower name) price) := by
  have hn' : goToLower name ≠ "" :=
    fun hcon => hn ((goToLower_eq_empty_iff name).mp hcon)
  constructor
  · intro hparse hf
    rw [runAdd_parsefail st code name price hc hn' hp hparse hf]
    exact ⟨rfl, rfl, rfl⟩
  · intro n d hparse hf
    rw [runAdd_createfail st code name price n d hc hn' hp hparse hf]
    exact ⟨rfl, rfl, rfl⟩

/-- Witness for C10 at `add(code="A", name="b", price="abc")` on an empty
healthy store: the parse-failure branch concretely inserts the price-0
record and concatenates the bodies. -/
theorem c10_witness :
    ("A" ≠ "" ∧ "b" ≠ "" ∧ "abc" ≠ "") ∧
    (runAdd {} "A" "b" "abc").1.records = [⟨1, "A", "b", 0⟩] ∧
    (runAdd {} "A" "b" "abc").2.1.body
      = "500 - " ++ BackendError ++ addedLine "A" (goToLower "b") "abc" :=
  ⟨by decide, by
    have h := (c10_add_does_not_return_early {} "A" "b" "abc"
      (by decide) (by decide) (by decide)).1 (by decide) rfl
    exact ⟨by simpa using h.1, h.2.2⟩⟩

/-- C1: adding a valid product (non-empty code and name, integral price
string) whose code is not already present, then getting by that code,
returns the inserted record: its name is the lowercased input name and its
price the integer value of the input price, and the response body is
`"<lowercased name>,<code>: $<price>"` with status 200. -/
theorem c1_add_then_get_by_code (st : Store) (code name price : String)
    (n : Int) (hc : code ≠ "") (hn : name ≠ "") (hparse : atoi price = some n)
    (hf : st.failure = none) (hfresh : ∀ p ∈ st.records, p.code ≠ code) :
    (∃ p ∈ (runAdd st code name price).1.records,
       p.code = code ∧ p.name = goToLower name ∧ p.price = n) ∧
    (runGet (runAdd st code name price).1 code "").2.1.status = some 200 ∧
    (runGet (runAdd st code name price).1 code "").2.1.body
      = goToLower name ++ "," ++ code ++ ": $" ++ toString n := by
  have hp : price ≠ "" := by
    intro hcon
    rw [hcon, atoi_empty] at hparse
    exact Option.noConfusion hparse
  have hn' : goToLower name ≠ "" :=
    fun hcon => hn ((goToLower_eq_empty_iff name).mp hcon)
  rw [runAdd_ok st code name price n hc hn' hp hparse hf]
  set newP : Product := ⟨st.nextId, code, goToLower name, n⟩ with hnewP
  set st1 : Store :=
    { st with accesses := st.accesses + 1, nextId := st.nextId + 1,
              records := st.records ++ [newP] } with hst1
  have hfind : st1.records.find? (condMatch .codeEq code) = some newP := by
    rw [hst1]
    simp only [List.find?_append]
    have h0 : st.records.find? (condMatch .codeEq code) = none := by
      rw [List.find?_eq_none]
      intro p hpmem
      simp only [condMatch, beq_iff_eq]
      exact hfresh p hpmem
    rw [h0]
    simp [condMatch]
  have he : (storeFirst st1 .codeEq code).1 = .ok newP := by
    simp [storeFirst, hf, hfind]
  rw [runGet_code_ok st1 code "" newP hc he]
  refine ⟨⟨newP, ?_, rfl, rfl, rfl⟩, rfl, rfl⟩
  simp [hst1]

/-- Witness for C1: the spec scenario `add(code="D42", name="Widget",
price="100")` then `get(code="D42")` yields body `"widget,D42: $100"`. -/
theorem c1_witness :
    atoi "100" = some 100 ∧
    (runGet (runAdd {} "D42" "Widget" "100").1 "D42" "").2.1.status
      = some 200 ∧
    (runGet (runAdd {} "D42" "Widget" "100").1 "D42" "").2.1.body
      = "widget,D42: $100" :=
  ⟨by decide, by
    have h := c1_add_then_get_by_code {} "D42" "Widget" "100" 100
      (by decide) (by decide) (by decide) rfl (by simp)
    refine ⟨h.2.1, ?_⟩
    rw [h.2.2]
    decide⟩

/-- C3 counterexample: on a store-create failure (detail
`"disk io error"`), the add response body is not only the generic
backend-error envelope — the success line is appended after it, because the
handler does not return after the error response.  (The get handler, by
contrast, does send exactly the envelope.) -/
theorem c3_counterexample :
    ¬ ((runAdd { failure := some "disk io error" } "A" "B" "1").2.1.body
        = "500 - " ++ BackendError) ∧
    (runAdd { failure := some "disk io error" } "A" "B" "1").2.1.body
      = "500 - " ++ BackendError ++ addedLine "A" "b" "1" := by
  decide

/-- C3 (amended): when the underlying store fails with detail `d`, the get
response body is exactly `"500 - backend error"`; the add response body
(on non-empty fields, the only ones that reach the store) is that
envelope — written twice when the price also failed to parse, since the
parse-failure response already emitted one — followed by the success line
(missing early return); in both handlers the body never contains the store
detail — it is a fixed string independent of `d`, so two runs differing
only in the detail produce identical client-visible bodies — while the
full detail is recorded on the trace context, and the add leaves no record
behind. -/
theorem c3_store_failure_never_leaks (st : Store) (d : String)
    (code name price : String) (hd : st.failure = some d)
    (hc : code ≠ "") (hn : name ≠ "") (hp : price ≠ "") :
    ((runGet st code "").2.1.body = "500 - " ++ BackendError ∧
     (runGet st code "").2.1.status = some 500 ∧
     (runGet st code "").2.2.errors = ["unable to GET product: " ++ d]) ∧
    ((runGet st "" name).2.1.body = "500 - " ++ BackendError ∧
     (runGet st "" name).2.2.errors = ["unable to GET product: " ++ d]) ∧
    ((runAdd st code name price).2.1.body
       = (if atoi price = none then "500 - " ++ BackendError else "")
         ++ ("500 - " ++ BackendError)
         ++ addedLine code (goToLower name) price ∧
     (runAdd st code name price).2.1.status = some 500 ∧
     (runAdd st code name price).2.2.errors
       = (if atoi price = none then [convErr price] else [])
         ++ ["error creating product: " ++ d] ∧
     (runAdd st code name price).1.records = st.records) ∧
    (∀ d₁ d₂ : String,
      (runGet { st with failure := some d₁ } code "").2.1.body
        = (runGet { st with failure := some d₂ } code "").2.1.body ∧
      (runAdd { st with failure := some d₁ } code name price).2.1.body
        = (runAdd { st with failure := some d₂ } code name price).2.1.body) := by
  have hn' : goToLower name ≠ "" :=
    fun hcon => hn ((goToLower_eq_empty_iff name).mp hcon)
  have hcodeErr : ∀ (st' : Store) (e : String), st'.failure = some e →
      (storeFirst st' .codeEq code).1 = .error (.backend e) := by
    intro st' e h
    simp [storeFirst, h]
  have hnameErr : (storeFirst st .nameEq (goToLower name)).1
      = .error (.backend d) := by
    simp [storeFirst, hd]
  have haddFull : ∀ (st' : Store) (e : String), st'.failure = some e →
      (runAdd st' code name price).2.1.body
        = (if atoi price = none then "500 - " ++ BackendError else "")
          ++ ("500 - " ++ BackendError)
          ++ addedLine code (goToLower name) price ∧
      (runAdd st' code name price).2.1.status = some 500 ∧
      (runAdd st' code name price).2.2.errors
        = (if atoi price = none then [convErr price] else [])
          ++ ["error creating product: " ++ e] ∧
      (runAdd st' code name price).1.records = st'.records := by
    intro st' e h
    rcases hparse : atoi price with _ | n
    · rw [runAdd_doublefail st' code name price e hc hn' hp hparse h]
      simp [hparse, traceDoubleFail]
    · rw [runAdd_createfail st' code name price n e hc hn' hp hparse h]
      simp [hparse, traceCreateFail]
  refine ⟨?_, ?_, haddFull st d hd, ?_⟩
  · rw [runGet_code_err st code "" (.backend d) hc (hcodeErr st d hd)]
    exact ⟨rfl, rfl, rfl⟩
  · rw [runGet_name_err st name (.backend d) hn' hnameErr]
    exact ⟨rfl, rfl⟩
  · intro d₁ d₂
    constructor
    · rw [runGet_code_err { st with failure := some d₁ } code "" (.backend d₁)
            hc (hcodeErr _ d₁ rfl),
          runGet_code_err { st with failure := some d₂ } code "" (.backend d₂)
            hc (hcodeErr _ d₂ rfl)]
    · rw [(haddFull { st with failure := some d₁ } d₁ rfl).1,
          (haddFull { st with failure := some d₂ } d₂ rfl).1]

/-- Witness for C3 (amended) with detail `"disk io error"` and the add
inputs `code="A"`, `name="B"`, `price="abc"`, exercising the
double-failure path: the create is still attempted and the body carries
two envelopes before the success line, none of them the store detail. -/
theorem c3_witness :
    (({ failure := some "disk io error" } : Store).failure
        = some "disk io error" ∧
      ("A" : String) ≠ "" ∧ ("B" : String) ≠ "" ∧ ("abc" : String) ≠ "") ∧
    (runGet { failure := some "disk io error" } "A" "").2.1.body
      = "500 - " ++ BackendError ∧
    (runAdd { failure := some "disk io error" } "A" "B" "abc").2.1.body
      = "500 - " ++ BackendError ++ ("500 - " ++ BackendError)
        ++ addedLine "A" "b" "abc" ∧
    (runAdd { failure := some "disk io error" } "A" "B" "abc").2.2.errors
      = [convErr "abc", "error creating product: disk io error"] :=
  ⟨⟨rfl, by decide, by decide, by decide⟩, by
    have h := c3_store_failure_never_leaks { failure := some "disk io error" }
      "disk io error" "A" "B" "abc" rfl (by decide) (by decide) (by decide)
    refine ⟨h.1.1, ?_, ?_⟩
    · rw [h.2.2.1.1]
      decide
    · rw [h.2.2.1.2.2.1]
      decide⟩

/-- C8 counterexample: the add request `add(code="A", name="b",
price="abc")` fails (status 500), yet its response body is not the bare
`"<status> - <message>"` envelope — the success line follows the envelope
in the same body. -/
theorem c8_counterexample :
    (runAdd {} "A" "b" "abc").2.1.status = some 500 ∧
    ¬ ((runAdd {} "A" "b" "abc").2.1.body = "500 - " ++ BackendError) ∧
    (runAdd {} "A" "b" "abc").2.1.body
      = "500 - " ++ BackendError ++ addedLine "A" "b" "abc" := by
  decide

/-- C8 (amended): response-body contract of the two handlers.  A successful
get returns exactly `"<name>,<code>: $<price>"` with status 200; the get
validation failure and get store failures return exactly
`"<status> - <message>"` with status 400 resp. 500; a successful add
returns exactly the `"Added Product: ..."` line (name lowercased, price
the raw string) with status 200; an add validation failure returns exactly
the 400 envelope; but the add price-parse-failure and store-failure paths
return the `"500 - backend error"` envelope (twice when both occur)
followed by the success line, under status 500. -/
theorem c8_response_body_contract :
    (∀ (st : Store) (code name : String) (p : Product), code ≠ "" →
      (storeFirst st .codeEq code).1 = .ok p →
      (runGet st code name).2.1.status = some 200 ∧
      (runGet st code name).2.1.body
        = p.name ++ "," ++ p.code ++ ": $" ++ toString p.price) ∧
    (∀ (st : Store) (name : String) (p : Product), goToLower name ≠ "" →
      (storeFirst st .nameEq (goToLower name)).1 = .ok p →
      (runGet st "" name).2.1.status = some 200 ∧
      (runGet st "" name).2.1.body
        = p.name ++ "," ++ p.code ++ ": $" ++ toString p.price) ∧
    (∀ st : Store,
      (runGet st "" "").2.1.status = some 400 ∧
      (runGet st "" "").2.1.body
        = "400 - bad request: either name or code must be provided for get") ∧
    (∀ (st : Store) (code name : String) (e : StoreErr), code ≠ "" →
      (storeFirst st .codeEq code).1 = .error e →
      (runGet st code name).2.1.status = some 500 ∧
      (runGet st code name).2.1.body = "500 - " ++ BackendError) ∧
    (∀ (st : Store) (name : String) (e : StoreErr), goToLower name ≠ "" →
      (storeFirst st .nameEq (goToLower name)).1 = .error e →
      (runGet st "" name).2.1.status = some 500 ∧
      (runGet st "" name).2.1.body = "500 - " ++ BackendError) ∧
    (∀ (st : Store) (code name price : String),
      code = "" ∨ name = "" ∨ price = "" →
      (runAdd st code name price).2.1.status = some 400 ∧
      (runAdd st code name price).2.1.body
        = "400 - bad request: code, name, and price can not be empty") ∧
    (∀ (st : Store) (code name price : String),
      code ≠ "" → name ≠ "" → price ≠ "" →
      (runAdd st code name price).2.1.status
        = some (if atoi price = none ∨ st.failure.isSome then 500 else 200) ∧
      (runAdd st code name price).2.1.body
        = (if atoi price = none then "500 - " ++ BackendError else "")
          ++ (if st.failure.isSome then "500 - " ++ BackendError else "")
          ++ addedLine code (goToLower name) price) := by
  refine ⟨?_, ?_, ?_, ?_, ?_, ?_, ?_⟩
  · intro st code name p hc hp
    rw [runGet_code_ok st code name p hc hp]
    exact ⟨rfl, rfl⟩
  · intro st name p hn hp
    rw [runGet_name_ok st name p hn hp]
    exact ⟨rfl, rfl⟩
  · intro st
    rw [runGet_validation st "" "" rfl rfl]
    exact ⟨rfl, rfl⟩
  · intro st code name e hc he
    rw [runGet_code_err st code name e hc he]
    exact ⟨rfl, rfl⟩
  · intro st name e hn he
    rw [runGet_name_err st name e hn he]
    exact ⟨rfl, rfl⟩
  · intro st code name price h
    have h' : code = "" ∨ goToLower name = "" ∨ price = "" := by
      rcases h with h | h | h
      · exact Or.inl h
      · exact Or.inr (Or.inl ((goToLower_eq_empty_iff name).mpr h))
      · exact Or.inr (Or.inr h)
    rw [runAdd_validation st code name price h']
    exact ⟨rfl, rfl⟩
  · intro st code name price hc hn hp
    have hn' : goToLower name ≠ "" :=
      fun hcon => hn ((goToLower_eq_empty_iff name).mp hcon)
    rcases hparse : atoi price with _ | n
    · rcases hfail : st.failure with _ | d
      · rw [runAdd_parsefail st code name price hc hn' hp hparse hfail]
        simp [hparse, hfail, String.append_assoc]
      · rw [runAdd_doublefail st code name price d hc hn' hp hparse hfail]
        simp [hparse, hfail, String.append_assoc]
    · rcases hfail : st.failure with _ | d
      · rw [runAdd_ok st code name price n hc hn' hp hparse hfail]
        simp [hparse, hfail]
      · rw [runAdd_createfail st code name price n d hc hn' hp hparse hfail]
        simp [hparse, hfail, String.append_assoc]

/-- Witness for C8 (amended), instantiating the get-by-code success clause
on a one-record store. -/
theorem c8_witness :
    (("D42" : String) ≠ "" ∧
      (storeFirst { nextId := 2, records := [⟨1, "D42", "widget", 100⟩] }
        .codeEq "D42").1 = .ok ⟨1, "D42", "widget", 100⟩) ∧
    (runGet { nextId := 2, records := [⟨1, "D42", "widget", 100⟩] }
        "D42" "").2.1.status = some 200 ∧
    (runGet { nextId := 2, records := [⟨1, "D42", "widget", 100⟩] }
        "D42" "").2.1.body
      = "widget" ++ "," ++ "D42" ++ ": $" ++ toString (100 : Int) :=
  ⟨⟨by decide, rfl⟩,
   c8_response_body_contract.1
     { nextId := 2, records := [⟨1, "D42", "widget", 100⟩] }
     "D42" "" ⟨1, "D42", "widget", 100⟩ (by decide) rfl⟩

/-- C4 counterexample: a get request supplying neither code nor name is
handled to completion (its response is sent) but closes zero store-access
segments, not exactly one as claimed — the validation path never opens
one. -/
theorem c4_counterexample :
    (runGet {} "" "").2.1.status = some 400 ∧
    (runGet {} "" "").2.2.countClosed "getProduct" = 0 ∧
    ¬ ((runGet {} "" "").2.2.countClosed "getProduct" = 1) := by
  decide

/-- C4 (amended): for every completed get or add request, every segment of
the trace context is closed when the handler returns.  A request closes
exactly one store-access segment (named `"getProduct"` in the source, also
around the create) unless it fails input validation, in which case it
closes none.  The get handler closes exactly one response-translation
segment (named `"okResponse"`, distinct from the store segment); the add
handler closes one response segment on its validation and fully successful
paths, plus one more for the price-parse-failure envelope and one more for
the store-failure envelope when those occur, because it does not return
early after an error response. -/
theorem c4_segments_closed_and_counted :
    (∀ (st : Store) (code name : String),
      (runGet st code name).2.2.allClosed = true ∧
      (runGet st code name).2.2.countClosed "getProduct"
        = (if code = "" ∧ goToLower name = "" then 0 else 1) ∧
      (runGet st code name).2.2.countClosed "okResponse" = 1) ∧
    (∀ (st : Store) (code name price : String),
      (runAdd st code name price).2.2.allClosed = true ∧
      (runAdd st code name price).2.2.countClosed "getProduct"
        = (if code = "" ∨ goToLower name = "" ∨ price = "" then 0 else 1) ∧
      (runAdd st code name price).2.2.countClosed "okResponse"
        = (if code = "" ∨ goToLower name = "" ∨ price = "" then 1
           else 1 + (if atoi price = none then 1 else 0)
                  + (if st.failure.isSome then 1 else 0))) := by
  constructor
  · intro st code name
    by_cases hc : code = ""
    · by_cases hn : goToLower name = ""
      · rw [runGet_validation st code name hc hn]
        simp [hc, hn]
        exact ⟨rfl, rfl, rfl⟩
      · subst hc
        rcases he : (storeFirst st .nameEq (goToLower name)).1 with e | p
        · rw [runGet_name_err st name e hn he]
          simp [hn]
          exact ⟨rfl, rfl, rfl⟩
        · rw [runGet_name_ok st name p hn he]
          simp [hn]
          exact ⟨rfl, rfl, rfl⟩
    · rcases he : (storeFirst st .codeEq code).1 with e | p
      · rw [runGet_code_err st code name e hc he]
        simp [hc]
        exact ⟨rfl, rfl, rfl⟩
      · rw [runGet_code_ok st code name p hc he]
        simp [hc]
        exact ⟨rfl, rfl, rfl⟩
  · intro st code name price
    by_cases hval : code = "" ∨ goToLower name = "" ∨ price = ""
    · rw [runAdd_validation st code name price hval]
      simp [hval]
      exact ⟨rfl, rfl, rfl⟩
    · push_neg at hval
      obtain ⟨hc, hn', hp⟩ := hval
      have hvalF : ¬ (code = "" ∨ goToLower name = "" ∨ price = "") := by
        simp [hc, hn', hp]
      rcases hparse : atoi price with _ | n
      · rcases hfail : st.failure with _ | d
        · rw [runAdd_parsefail st code name price hc hn' hp hparse hfail]
          simp [hvalF, hparse, hfail]
          exact ⟨rfl, rfl, rfl⟩
        · rw [runAdd_doublefail st code name price d hc hn' hp hparse hfail]
          simp [hvalF, hparse, hfail]
          exact ⟨rfl, rfl, rfl⟩
      · rcases hfail : st.failure with _ | d
        · rw [runAdd_ok st code name price n hc hn' hp hparse hfail]
          simp [hvalF, hparse, hfail]
          exact ⟨rfl, rfl, rfl⟩
        · rw [runAdd_createfail st code name price n d hc hn' hp hparse hfail]
          simp [hvalF, hparse, hfail]
          exact ⟨rfl, rfl, rfl⟩
